import Mathlib

/-!
# Verification of the epi-aws-s3 Node-RED S3 connector

Shallow embedding of `epi-aws.js`: the per-request input handlers of the
download node (`EpiAmazonS3DownloadNode`) and the upload node
(`EpiAmazonS3UploadNode`), together with the `detectContentType` helper.

The storage client (`s3Client.send`) is an external collaborator: its reply
(a chunk stream for get-object, an ETag/VersionId record for put-object, or a
thrown service error) is passed to the handlers as an explicit parameter.
Node status updates are display-only (out of scope per the spec) and are not
modelled; the `node.error(...)` log channel is modelled by an `errorLog`
field so that "an error is reported" is observable.
-/

namespace EpiAwsS3

/-- Byte sequences (Node `Buffer` contents) as lists of byte values. -/
abbrev Bytes := List Nat

/-- JavaScript values as far as the handlers inspect them: the payload and
the fields of the result message. Mirrors the `typeof` / `Buffer.isBuffer`
branching in `epi-aws.js`. -/
inductive JSValue where
  | jsUndefined : JSValue
  | jsNull : JSValue
  | jsBool (b : Bool) : JSValue
  | jsNum (n : Int) : JSValue
  | jsStr (s : String) : JSValue
  | jsBuffer (bytes : Bytes) : JSValue
  | jsArr (elems : List JSValue) : JSValue
  | jsObj (fields : List (String × JSValue)) : JSValue

open JSValue

/-- `typeof` on the modelled values. `typeof null === "object"` in JS. -/
def typeofJS : JSValue → String
  | jsUndefined => "undefined"
  | jsNull => "object"
  | jsBool _ => "boolean"
  | jsNum _ => "number"
  | jsStr _ => "string"
  | jsBuffer _ => "object"
  | jsArr _ => "object"
  | jsObj _ => "object"

/-- `Buffer.isBuffer`. -/
def isBufferJS : JSValue → Bool
  | jsBuffer _ => true
  | _ => false

/-- UTF-8 encoding of one character (what `Buffer.from(s, "utf8")` does
per code point). -/
def utf8EncodeCharNat (c : Char) : Bytes :=
  let n := c.toNat
  if n < 0x80 then [n]
  else if n < 0x800 then
    [0xC0 + n / 64, 0x80 + n % 64]
  else if n < 0x10000 then
    [0xE0 + n / 4096, 0x80 + (n / 64) % 64, 0x80 + n % 64]
  else
    [0xF0 + n / 262144, 0x80 + (n / 4096) % 64, 0x80 + (n / 64) % 64,
     0x80 + n % 64]

/-- `Buffer.from(s, "utf8")` as a byte list. -/
def utf8Bytes (s : String) : Bytes :=
  s.data.flatMap utf8EncodeCharNat

/-- JSON string escaping as performed by `JSON.stringify` for the
characters the handlers can meet (quote, backslash, the common control
characters; all other characters pass through). -/
def jsonEscapeChar (c : Char) : String :=
  if c = '"' then "\\\""
  else if c = '\\' then "\\\\"
  else if c = '\n' then "\\n"
  else if c = '\r' then "\\r"
  else if c = '\t' then "\\t"
  else String.singleton c

def jsonEscape (s : String) : String :=
  String.join (s.data.map jsonEscapeChar)

mutual
/-- `JSON.stringify`.  Returns `none` exactly where the builtin returns
`undefined` (top-level `undefined`); `undefined`-valued object fields are
dropped, `undefined` array elements serialize as `null`, and a `Buffer`
serializes through its `toJSON` form. -/
def jsonStringify : JSValue → Option String
  | jsUndefined => none
  | jsNull => some "null"
  | jsBool b => some (cond b "true" "false")
  | jsNum n => some (toString n)
  | jsStr s => some ("\"" ++ jsonEscape s ++ "\"")
  | jsBuffer bs =>
      some ("\x7b\"type\":\"Buffer\",\"data\":[" ++
        String.intercalate "," (bs.map (fun b => toString b)) ++ "]\x7d")
  | jsArr es => some ("[" ++ String.intercalate "," (jsonStringifyArr es) ++ "]")
  | jsObj fs => some ("\x7b" ++ String.intercalate "," (jsonStringifyObj fs) ++ "\x7d")

def jsonStringifyArr : List JSValue → List String
  | [] => []
  | v :: rest =>
      (match jsonStringify v with
       | some s => s
       | none => "null") :: jsonStringifyArr rest

def jsonStringifyObj : List (String × JSValue) → List String
  | [] => []
  | (k, v) :: rest =>
      match jsonStringify v with
      | some s => ("\"" ++ jsonEscape k ++ "\":" ++ s) :: jsonStringifyObj rest
      | none => jsonStringifyObj rest
end

/-- A service error thrown by `s3Client.send` (`err.$metadata.httpStatusCode`
drives classification; `err.message` the default text). -/
structure S3Err where
  message : String
  httpStatusCode : Option Nat
deriving DecidableEq, Repr

/-- The values the handlers assign to (or may find in) `msg.error`:
a service error object or a locally constructed `Error` (e.g. the
size-limit error). -/
inductive ErrVal where
  | s3 (e : S3Err)
  | jsError (message : String)
deriving DecidableEq, Repr

/-- A Node-RED message as the handlers see it: the consumed/overwritten
fields are explicit, every other field is carried in `rest` untouched. -/
structure Msg where
  payload : JSValue := jsUndefined
  bucket : Option String := none
  filename : Option String := none
  contentType : Option String := none
  acl : Option String := none
  error : Option ErrVal := none
  rest : List (String × JSValue) := []

/-- JS truthiness of a string-or-undefined value: `undefined` and `""` are
falsy. -/
def truthyStr : Option String → Bool
  | some s => s ≠ ""
  | none => false

/-- `a || b` over string-or-undefined values. -/
def jsOr (a b : Option String) : Option String :=
  if truthyStr a then a else b

-- Constants from the top of `epi-aws.js`.

def MAX_DOWNLOAD_SIZE : Nat := 100 * 1024 * 1024

def MAX_UPLOAD_SIZE : Nat := 5 * 1024 * 1024 * 1024

def PROGRESS_UPDATE_INTERVAL : Nat := 1024 * 1024

/-! ## Download node -/

/-- Static configuration of the download node. `this.filename = n.filename || ""`
makes the filename always a string; `this.bucket = n.bucket` may be absent. -/
structure DlConfig where
  bucket : Option String := none
  filename : String := ""
deriving DecidableEq, Repr

/-- Error classification of the download catch-block: the user-facing log
text picked from `err.$metadata.httpStatusCode`. -/
def classifyDownloadError (e : S3Err) : String :=
  match e.httpStatusCode with
  | some 404 => "file-not-found"
  | some 403 => "access-denied"
  | some 400 => "invalid-request"
  | _ => e.message

/-- The chunk-accumulation loop of the download handler:
`totalSize += chunk.length` first, then the budget check, then
`chunks.push(chunk)`. -/
def accumGo : List Bytes → Nat → List Bytes → Except String (List Bytes)
  | [], _, acc => .ok acc
  | c :: rest, total, acc =>
      let total' := total + c.length
      if MAX_DOWNLOAD_SIZE < total' then .error "size-limit-exceeded"
      else accumGo rest total' (acc ++ [c])

def accumulateChunks (chunks : List Bytes) : Except String (List Bytes) :=
  accumGo chunks 0 []

/-- Result of one invocation of a node's input handler: the message
object's final state (the handlers mutate `msg` in place and `send` that
same object), whether `node.send` was called, and what `node.error`
logged, if anything. -/
structure DownloadResult where
  msg : Msg
  sent : Bool
  errorLog : Option String
  /-- the `(Bucket, Key)` of the issued `GetObjectCommand`, if one was issued -/
  request : Option (String × String)

/-- The download node's `input` handler.  `resp` is what `s3Client.send`
produces for the issued get-object request: a thrown service error or the
response body as a list of chunks. -/
def downloadOnInput (cfg : DlConfig) (msg : Msg)
    (resp : Except S3Err (List Bytes)) : DownloadResult :=
  let bucket := jsOr cfg.bucket msg.bucket
  let filename := jsOr (some cfg.filename) msg.filename
  if ¬ truthyStr bucket then
    { msg := msg, sent := false, errorLog := some "no-bucket-specified",
      request := none }
  else if ¬ truthyStr filename then
    { msg := msg, sent := false, errorLog := some "no-filename-specified",
      request := none }
  else
    let msg1 := { msg with bucket := bucket, filename := filename }
    let req := some (bucket.getD "", filename.getD "")
    match resp with
    | .error e =>
        { msg := { msg1 with payload := jsNull, error := some (.s3 e) },
          sent := true,
          errorLog := some ("download-failed: " ++ classifyDownloadError e),
          request := req }
    | .ok chunks =>
        match accumulateChunks chunks with
        | .ok cs =>
            { msg := { msg1 with payload := jsBuffer cs.flatten },
              sent := true, errorLog := none, request := req }
        | .error emsg =>
            { msg := { msg1 with payload := jsNull, error := some (.jsError emsg) },
              sent := true,
              errorLog := some ("download-failed: " ++ emsg),
              request := req }

/-! ## Upload node -/

/-- Static configuration of the upload node.  As in the source,
`filename`, `contentType` and `acl` are defaulted to `""` at node
construction (`n.x || ""`); `bucket` may be absent. -/
structure UlConfig where
  bucket : Option String := none
  filename : String := ""
  contentType : String := ""
  acl : String := ""
deriving DecidableEq, Repr

/-- The extension→MIME table of `detectContentType`. -/
def mimeTypes : List (String × String) :=
  [("txt", "text/plain"),
   ("html", "text/html"),
   ("htm", "text/html"),
   ("css", "text/css"),
   ("csv", "text/csv"),
   ("xml", "text/xml"),
   ("json", "application/json"),
   ("js", "application/javascript"),
   ("pdf", "application/pdf"),
   ("zip", "application/zip"),
   ("gz", "application/gzip"),
   ("tar", "application/x-tar"),
   ("jpg", "image/jpeg"),
   ("jpeg", "image/jpeg"),
   ("png", "image/png"),
   ("gif", "image/gif"),
   ("svg", "image/svg+xml"),
   ("webp", "image/webp"),
   ("ico", "image/x-icon"),
   ("mp3", "audio/mpeg"),
   ("wav", "audio/wav"),
   ("ogg", "audio/ogg"),
   ("mp4", "video/mp4"),
   ("webm", "video/webm"),
   ("avi", "video/x-msvideo")]

/-- `filename.toLowerCase()`: ASCII lowercasing, character by character
(the table keys are all ASCII, so this matches the builtin on every
string that could ever hit the table). -/
def lowerStr (s : String) : String := ⟨s.data.map Char.toLower⟩

/-- `split(".")` on the character list, accumulating the current segment. -/
def splitOnDotAux : List Char → List Char → List (List Char)
  | [], cur => [cur.reverse]
  | '.' :: rest, cur => cur.reverse :: splitOnDotAux rest []
  | c :: rest, cur => splitOnDotAux rest (c :: cur)

/-- `s.split(".").pop()`: the last dot-separated segment of `s` (the whole
string when `s` has no dot). -/
def lastDotSegment (s : String) : String :=
  ⟨(splitOnDotAux s.data []).getLastD []⟩

/-- `detectContentType(filename)` from the source: falsy filename maps to
octet-stream, otherwise `filename.toLowerCase().split(".").pop()` is looked
up in the table with octet-stream as default.  Note that for a filename
without any dot the "extension" is the whole lowercased name. -/
def detectContentType (filename : Option String) : String :=
  match filename with
  | none => "application/octet-stream"
  | some f =>
      if f = "" then "application/octet-stream"
      else
        let ext := lastDotSegment (lowerStr f)
        ((mimeTypes.lookup ext).getD "application/octet-stream")

/-- Line 240: `node.contentType || msg.contentType || detectContentType(filename)`. -/
def resolveContentType (nodeCT : String) (msgCT : Option String)
    (filename : Option String) : String :=
  if nodeCT ≠ "" then nodeCT
  else
    match msgCT with
    | some s => if s ≠ "" then s else detectContentType filename
    | none => detectContentType filename

/-- `msg.payload === undefined || msg.payload === null`. -/
def isNullish : JSValue → Bool
  | jsUndefined => true
  | jsNull => true
  | _ => false

/-- The body handed to `PutObjectCommand`: either a `Buffer` (after the
string/object conversions) or the payload value passed through untouched
when no conversion branch applies. -/
inductive Body where
  | bytes (b : Bytes)
  | raw (v : JSValue)

/-- Lines 259–266: strings are UTF-8 encoded; non-`Buffer` values of
`typeof === "object"` are `JSON.stringify`-ed then UTF-8 encoded; a
`Buffer` is used as-is; everything else (numbers, booleans, …) is left
untouched. -/
def normalizeBody (p : JSValue) : Body :=
  match p with
  | jsStr s => .bytes (utf8Bytes s)
  | jsBuffer bs => .bytes bs
  | jsNull => .bytes (utf8Bytes ((jsonStringify jsNull).getD ""))
  | jsArr es => .bytes (utf8Bytes ((jsonStringify (jsArr es)).getD ""))
  | jsObj fs => .bytes (utf8Bytes ((jsonStringify (jsObj fs)).getD ""))
  | v => .raw v

/-- Line 269: `Buffer.isBuffer(body) && body.length > MAX_UPLOAD_SIZE`. -/
def bodyOversized : Body → Bool
  | .bytes b => MAX_UPLOAD_SIZE < b.length
  | .raw _ => false

/-- What `s3Client.send` returns for a successful put-object call. -/
structure PutResponse where
  etag : Option String := none
  versionId : Option String := none
deriving DecidableEq, Repr

/-- The parameters of the issued `PutObjectCommand`; `contentType` and
`acl` are `none` when the corresponding key was not put on
`commandParams`. -/
structure PutParams where
  bucket : String
  key : String
  body : Body
  contentType : Option String
  acl : Option String

/-- Error classification of the upload catch-block. -/
def classifyUploadError (e : S3Err) : String :=
  match e.httpStatusCode with
  | some 403 => "access-denied"
  | some 400 => "invalid-request"
  | some 404 => "bucket-not-found"
  | _ => e.message

/-- `Option String` to the JS value stored in an object field
(`undefined` when absent). -/
def optStrToJS : Option String → JSValue
  | some s => jsStr s
  | none => jsUndefined

/-- Result of one invocation of the upload node's input handler. -/
structure UploadResult where
  msg : Msg
  sent : Bool
  errorLog : Option String
  request : Option PutParams

/-- The upload node's `input` handler.  `resp` is what `s3Client.send`
produces for the issued put-object request. -/
def uploadOnInput (cfg : UlConfig) (msg : Msg)
    (resp : Except S3Err PutResponse) : UploadResult :=
  let bucket := jsOr cfg.bucket msg.bucket
  let filename := jsOr (some cfg.filename) msg.filename
  let contentType := resolveContentType cfg.contentType msg.contentType filename
  let acl := jsOr (some cfg.acl) msg.acl
  if ¬ truthyStr bucket then
    { msg := msg, sent := false, errorLog := some "no-bucket-specified",
      request := none }
  else if ¬ truthyStr filename then
    { msg := msg, sent := false, errorLog := some "no-filename-specified",
      request := none }
  else if isNullish msg.payload then
    { msg := msg, sent := false, errorLog := some "no-payload-specified",
      request := none }
  else
    let body := normalizeBody msg.payload
    if bodyOversized body then
      { msg := msg, sent := false,
        errorLog := some "upload-size-limit-exceeded", request := none }
    else
      let msg1 := { msg with bucket := bucket, filename := filename }
      let params : PutParams :=
        { bucket := bucket.getD "", key := filename.getD "", body := body,
          contentType := if contentType ≠ "" then some contentType else none,
          acl := if truthyStr acl then acl else none }
      match resp with
      | .ok r =>
          let receipt := jsObj
            [("success", jsBool true),
             ("bucket", jsStr (bucket.getD "")),
             ("key", jsStr (filename.getD "")),
             ("etag", optStrToJS r.etag),
             ("versionId", optStrToJS r.versionId)]
          { msg := { msg1 with payload := receipt },
            sent := true, errorLog := none, request := some params }
      | .error e =>
          { msg := { msg1 with payload := jsNull, error := some (.s3 e) },
            sent := true,
            errorLog := some ("upload-failed: " ++ classifyUploadError e),
            request := some params }

/-- Does a JS object value have the given own property (even with an
`undefined` value)? -/
def objHasField (v : JSValue) (k : String) : Bool :=
  match v with
  | jsObj fs => (fs.lookup k).isSome
  | _ => false

/-- The value of a field of a JS object value (`none` when the key is not
an own property at all). -/
def objField (v : JSValue) (k : String) : Option JSValue :=
  match v with
  | jsObj fs => fs.lookup k
  | _ => none

/-- A "populated" payload/field value: neither `undefined` nor `null`. -/
def populatedVal (v : JSValue) : Bool :=
  ¬ isNullish v

/-- Observation helper: the byte contents of a `Body`, when it is a buffer. -/
def bodyBytes : Body → Option Bytes
  | .bytes b => some b
  | .raw _ => none

/-- Observation helper: the numeric value of a `Body` that passed through raw. -/
def bodyRawNum : Body → Option Int
  | .raw (jsNum n) => some n
  | _ => none

/-! ## Helper lemmas -/

theorem accumGo_ok (chunks : List Bytes) (t : Nat) (acc : List Bytes)
    (h : t + (chunks.map List.length).sum ≤ MAX_DOWNLOAD_SIZE) :
    accumGo chunks t acc = .ok (acc ++ chunks) := by
  induction chunks generalizing t acc with
  | nil => simp [accumGo]
  | cons c rest ih =>
      simp only [List.map_cons, List.sum_cons] at h
      have hc : ¬ MAX_DOWNLOAD_SIZE < t + c.length := by omega
      rw [accumGo]
      simp only [hc, if_false]
      rw [ih (t + c.length) (acc ++ [c]) (by omega)]
      simp

theorem accumGo_err (chunks : List Bytes) (t : Nat) (acc : List Bytes)
    (ht : t ≤ MAX_DOWNLOAD_SIZE)
    (h : MAX_DOWNLOAD_SIZE < t + (chunks.map List.length).sum) :
    accumGo chunks t acc = .error "size-limit-exceeded" := by
  induction chunks generalizing t acc with
  | nil => simp at h; omega
  | cons c rest ih =>
      simp only [List.map_cons, List.sum_cons] at h
      rw [accumGo]
      by_cases hc : MAX_DOWNLOAD_SIZE < t + c.length
      · simp [hc]
      · simp only [hc, if_false]
        exact ih (t + c.length) (acc ++ [c]) (by omega) (by omega)

theorem accumulateChunks_ok (chunks : List Bytes)
    (h : (chunks.map List.length).sum ≤ MAX_DOWNLOAD_SIZE) :
    accumulateChunks chunks = .ok chunks := by
  unfold accumulateChunks
  rw [accumGo_ok chunks 0 [] (by omega)]
  simp

theorem accumulateChunks_err (chunks : List Bytes)
    (h : MAX_DOWNLOAD_SIZE < (chunks.map List.length).sum) :
    accumulateChunks chunks = .error "size-limit-exceeded" := by
  unfold accumulateChunks
  exact accumGo_err chunks 0 [] (by omega) (by omega)

/-! ## Claim theorems -/

/-- C2: for every download whose chunk stream reaches a cumulative byte
count exceeding 100 MiB at any point, the accumulation aborts as a
size-limit error, no success payload is ever emitted, and exactly one
output message is still emitted carrying a populated error field and a
null payload — never any partial content. -/
theorem download_size_limit_no_partial_content
    (cfg : DlConfig) (msg : Msg) (chunks : List Bytes)
    (hb : truthyStr (jsOr cfg.bucket msg.bucket) = true)
    (hf : truthyStr (jsOr (some cfg.filename) msg.filename) = true)
    (hsize : ∃ k, MAX_DOWNLOAD_SIZE < (((chunks.take k).map List.length).sum)) :
    accumulateChunks chunks = .error "size-limit-exceeded" ∧
    (downloadOnInput cfg msg (.ok chunks)).sent = true ∧
    (downloadOnInput cfg msg (.ok chunks)).msg.payload = JSValue.jsNull ∧
    (downloadOnInput cfg msg (.ok chunks)).msg.error =
      some (.jsError "size-limit-exceeded") ∧
    (downloadOnInput cfg msg (.ok chunks)).errorLog =
      some "download-failed: size-limit-exceeded" := by
  obtain ⟨k, hk⟩ := hsize
  have htot : MAX_DOWNLOAD_SIZE < (chunks.map List.length).sum := by
    have hsplit : chunks = chunks.take k ++ chunks.drop k :=
      (List.take_append_drop k chunks).symm
    calc MAX_DOWNLOAD_SIZE < ((chunks.take k).map List.length).sum := hk
      _ ≤ ((chunks.take k).map List.length).sum
            + ((chunks.drop k).map List.length).sum := Nat.le_add_right _ _
      _ = (chunks.map List.length).sum := by
            conv_rhs => rw [hsplit]
            simp
  have hacc := accumulateChunks_err chunks htot
  refine ⟨hacc, ?_, ?_, ?_, ?_⟩ <;>
    simp [downloadOnInput, hb, hf, hacc]

/-- Witness for C2 at a concrete input: a single chunk one byte over the
100 MiB ceiling. -/
theorem download_size_limit_no_partial_content_witness :
    accumulateChunks [List.replicate (MAX_DOWNLOAD_SIZE + 1) 0] =
      .error "size-limit-exceeded" ∧
    (downloadOnInput { bucket := some "b", filename := "f" } {}
        (.ok [List.replicate (MAX_DOWNLOAD_SIZE + 1) 0])).sent = true ∧
    (downloadOnInput { bucket := some "b", filename := "f" } {}
        (.ok [List.replicate (MAX_DOWNLOAD_SIZE + 1) 0])).msg.payload =
      JSValue.jsNull ∧
    (downloadOnInput { bucket := some "b", filename := "f" } {}
        (.ok [List.replicate (MAX_DOWNLOAD_SIZE + 1) 0])).msg.error =
      some (.jsError "size-limit-exceeded") ∧
    (downloadOnInput { bucket := some "b", filename := "f" } {}
        (.ok [List.replicate (MAX_DOWNLOAD_SIZE + 1) 0])).errorLog =
      some "download-failed: size-limit-exceeded" :=
  download_size_limit_no_partial_content _ _ _ (by decide) (by decide)
    ⟨1, by simp⟩

/-- C3: for every download whose body arrives as chunks whose concatenation
is a byte sequence `B` with `|B| ≤` 100 MiB, the payload of the emitted
success message equals `B` exactly, independently of how the bytes were
split into chunks. -/
theorem download_payload_is_exact_concatenation
    (cfg : DlConfig) (msg : Msg) (chunks : List Bytes)
    (hb : truthyStr (jsOr cfg.bucket msg.bucket) = true)
    (hf : truthyStr (jsOr (some cfg.filename) msg.filename) = true)
    (hsize : chunks.flatten.length ≤ MAX_DOWNLOAD_SIZE) :
    (downloadOnInput cfg msg (.ok chunks)).sent = true ∧
    (downloadOnInput cfg msg (.ok chunks)).errorLog = none ∧
    (downloadOnInput cfg msg (.ok chunks)).msg.payload =
      JSValue.jsBuffer chunks.flatten ∧
    (∀ chunks₂ : List Bytes, chunks₂.flatten = chunks.flatten →
      (downloadOnInput cfg msg (.ok chunks₂)).msg.payload =
        (downloadOnInput cfg msg (.ok chunks)).msg.payload) := by
  have hsum : (chunks.map List.length).sum ≤ MAX_DOWNLOAD_SIZE := by
    rw [← List.length_flatten]; exact hsize
  have hacc := accumulateChunks_ok chunks hsum
  refine ⟨?_, ?_, ?_, ?_⟩
  · simp [downloadOnInput, hb, hf, hacc]
  · simp [downloadOnInput, hb, hf, hacc]
  · simp [downloadOnInput, hb, hf, hacc]
  · intro chunks₂ h₂
    have hsum₂ : (chunks₂.map List.length).sum ≤ MAX_DOWNLOAD_SIZE := by
      rw [← List.length_flatten, h₂, List.length_flatten]; exact hsum
    have hacc₂ := accumulateChunks_ok chunks₂ hsum₂
    simp [downloadOnInput, hb, hf, hacc, hacc₂, h₂]

/-- Witness for C3 at a concrete input: two different chunkings of the same
four bytes. -/
theorem download_payload_is_exact_concatenation_witness :
    (downloadOnInput { bucket := some "b", filename := "f" } {}
        (.ok [[10, 20], [30, 40]])).sent = true ∧
    (downloadOnInput { bucket := some "b", filename := "f" } {}
        (.ok [[10, 20], [30, 40]])).errorLog = none ∧
    (downloadOnInput { bucket := some "b", filename := "f" } {}
        (.ok [[10, 20], [30, 40]])).msg.payload =
      JSValue.jsBuffer [10, 20, 30, 40] ∧
    (∀ chunks₂ : List Bytes, chunks₂.flatten = [10, 20, 30, 40] →
      (downloadOnInput { bucket := some "b", filename := "f" } {}
          (.ok chunks₂)).msg.payload =
        (downloadOnInput { bucket := some "b", filename := "f" } {}
            (.ok [[10, 20], [30, 40]])).msg.payload) := by
  have h := download_payload_is_exact_concatenation
    { bucket := some "b", filename := "f" } {} [[10, 20], [30, 40]]
    (by decide) (by decide) (by decide)
  simpa using h

/-- C1 counterexample: the success paths of both handlers never clear
`msg.error`, so a download that succeeds on an input message already
carrying a populated error field emits a message with BOTH a populated
payload and a populated error — refuting the claim that the error field is
cleared on success. -/
theorem download_success_keeps_stale_error_counterexample :
    (downloadOnInput { bucket := some "b", filename := "f" }
        { error := some (.jsError "stale") } (.ok [[104, 105]])).sent = true ∧
    populatedVal (downloadOnInput { bucket := some "b", filename := "f" }
        { error := some (.jsError "stale") } (.ok [[104, 105]])).msg.payload
      = true ∧
    (downloadOnInput { bucket := some "b", filename := "f" }
        { error := some (.jsError "stale") } (.ok [[104, 105]])).msg.error
      = some (.jsError "stale") := by
  refine ⟨?_, ?_, ?_⟩ <;>
    simp [downloadOnInput, jsOr, truthyStr, accumulateChunks, accumGo,
      MAX_DOWNLOAD_SIZE, populatedVal, isNullish]

/-- C1 amended: the success paths leave the error field untouched rather
than clearing it; therefore, provided the input message carries no
populated error field, the emitted message never carries both a populated
payload and a populated error, for both operations: on success the payload
is set and the error field stays unpopulated, and on in-flight failure the
payload is null and the error field is set. -/
theorem no_message_with_both_payload_and_error
    (dcfg : DlConfig) (ucfg : UlConfig) (msg : Msg)
    (dresp : Except S3Err (List Bytes)) (uresp : Except S3Err PutResponse)
    (herr : msg.error = none) :
    ((downloadOnInput dcfg msg dresp).sent = true →
      ¬(populatedVal (downloadOnInput dcfg msg dresp).msg.payload = true ∧
        ((downloadOnInput dcfg msg dresp).msg.error).isSome = true)) ∧
    ((uploadOnInput ucfg msg uresp).sent = true →
      ¬(populatedVal (uploadOnInput ucfg msg uresp).msg.payload = true ∧
        ((uploadOnInput ucfg msg uresp).msg.error).isSome = true)) := by
  constructor
  · by_cases hb : truthyStr (jsOr dcfg.bucket msg.bucket) = true
    · by_cases hf : truthyStr (jsOr (some dcfg.filename) msg.filename) = true
      · cases dresp with
        | error e => simp [downloadOnInput, hb, hf, populatedVal, isNullish]
        | ok chunks =>
            cases hacc : accumulateChunks chunks with
            | ok cs => simp [downloadOnInput, hb, hf, hacc, herr]
            | error emsg =>
                simp [downloadOnInput, hb, hf, hacc, populatedVal, isNullish]
      · simp [downloadOnInput, hb, hf]
    · simp [downloadOnInput, hb]
  · by_cases hb : truthyStr (jsOr ucfg.bucket msg.bucket) = true
    · by_cases hf : truthyStr (jsOr (some ucfg.filename) msg.filename) = true
      · by_cases hp : isNullish msg.payload = true
        · simp [uploadOnInput, hb, hf, hp]
        · by_cases hs : bodyOversized (normalizeBody msg.payload) = true
          · simp [uploadOnInput, hb, hf, hp, hs]
          · cases uresp with
            | error e =>
                simp only [uploadOnInput, hb, hf, hp, hs]
                simp [populatedVal, isNullish]
            | ok r => simp [uploadOnInput, hb, hf, hp, hs, herr]
      · simp [uploadOnInput, hb, hf]
    · simp [uploadOnInput, hb]

/-- Witness for C1 (amended) at a concrete error-free input message. -/
theorem no_message_with_both_payload_and_error_witness :
    ((downloadOnInput { bucket := some "b", filename := "f" }
        { payload := JSValue.jsStr "p" } (.ok [[1]])).sent = true →
      ¬(populatedVal (downloadOnInput { bucket := some "b", filename := "f" }
          { payload := JSValue.jsStr "p" } (.ok [[1]])).msg.payload = true ∧
        ((downloadOnInput { bucket := some "b", filename := "f" }
          { payload := JSValue.jsStr "p" } (.ok [[1]])).msg.error).isSome
          = true)) ∧
    ((uploadOnInput { bucket := some "b", filename := "f.txt" }
        { payload := JSValue.jsStr "p" } (.ok {})).sent = true →
      ¬(populatedVal (uploadOnInput { bucket := some "b", filename := "f.txt" }
          { payload := JSValue.jsStr "p" } (.ok {})).msg.payload = true ∧
        ((uploadOnInput { bucket := some "b", filename := "f.txt" }
          { payload := JSValue.jsStr "p" } (.ok {})).msg.error).isSome
          = true)) :=
  no_message_with_both_payload_and_error
    { bucket := some "b", filename := "f" }
    { bucket := some "b", filename := "f.txt" }
    { payload := JSValue.jsStr "p" } (.ok [[1]]) (.ok {}) rfl

/-- C8: both handlers only ever touch `payload`, `bucket`, `filename` and
`error`; every other field of the input message (here: `contentType`,
`acl`, and all the arbitrary fields in `rest`) is present and unchanged on
the resulting message, on the success path, the in-flight-failure path and
even the validation-failure path. -/
theorem unconsumed_fields_pass_through_unchanged
    (dcfg : DlConfig) (ucfg : UlConfig) (msg : Msg)
    (dresp : Except S3Err (List Bytes)) (uresp : Except S3Err PutResponse) :
    ((downloadOnInput dcfg msg dresp).msg.contentType = msg.contentType ∧
     (downloadOnInput dcfg msg dresp).msg.acl = msg.acl ∧
     (downloadOnInput dcfg msg dresp).msg.rest = msg.rest) ∧
    ((uploadOnInput ucfg msg uresp).msg.contentType = msg.contentType ∧
     (uploadOnInput ucfg msg uresp).msg.acl = msg.acl ∧
     (uploadOnInput ucfg msg uresp).msg.rest = msg.rest) := by
  constructor
  · by_cases hb : truthyStr (jsOr dcfg.bucket msg.bucket) = true
    · by_cases hf : truthyStr (jsOr (some dcfg.filename) msg.filename) = true
      · cases dresp with
        | error e => simp [downloadOnInput, hb, hf]
        | ok chunks =>
            cases hacc : accumulateChunks chunks with
            | ok cs => simp [downloadOnInput, hb, hf, hacc]
            | error emsg => simp [downloadOnInput, hb, hf, hacc]
      · simp [downloadOnInput, hb, hf]
    · simp [downloadOnInput, hb]
  · by_cases hb : truthyStr (jsOr ucfg.bucket msg.bucket) = true
    · by_cases hf : truthyStr (jsOr (some ucfg.filename) msg.filename) = true
      · by_cases hp : isNullish msg.payload = true
        · simp [uploadOnInput, hb, hf, hp]
        · by_cases hs : bodyOversized (normalizeBody msg.payload) = true
          · simp [uploadOnInput, hb, hf, hp, hs]
          · cases uresp with
            | error e =>
                simp only [uploadOnInput, hb, hf, hp, hs]
                simp
            | ok r =>
                simp only [uploadOnInput, hb, hf, hp, hs]
                simp
      · simp [uploadOnInput, hb, hf]
    · simp [uploadOnInput, hb]

/-- C9: whenever pre-flight validation fails (missing resolved bucket,
missing resolved filename, missing upload payload, or an oversized upload
body), the handler returns before writing the resolved bucket/filename
back onto the message: no message is emitted, no storage request is
issued, and the message object is left entirely unmodified. -/
theorem validation_failure_leaves_message_unmodified
    (dcfg : DlConfig) (ucfg : UlConfig) (msg : Msg)
    (dresp : Except S3Err (List Bytes)) (uresp : Except S3Err PutResponse) :
    ((truthyStr (jsOr dcfg.bucket msg.bucket) = false ∨
      truthyStr (jsOr (some dcfg.filename) msg.filename) = false) →
      (downloadOnInput dcfg msg dresp).msg = msg ∧
      (downloadOnInput dcfg msg dresp).sent = false ∧
      (downloadOnInput dcfg msg dresp).request = none) ∧
    ((truthyStr (jsOr ucfg.bucket msg.bucket) = false ∨
      truthyStr (jsOr (some ucfg.filename) msg.filename) = false ∨
      isNullish msg.payload = true ∨
      bodyOversized (normalizeBody msg.payload) = true) →
      (uploadOnInput ucfg msg uresp).msg = msg ∧
      (uploadOnInput ucfg msg uresp).sent = false ∧
      (uploadOnInput ucfg msg uresp).request = none) := by
  constructor
  · intro hval
    by_cases hb : truthyStr (jsOr dcfg.bucket msg.bucket) = true
    · by_cases hf : truthyStr (jsOr (some dcfg.filename) msg.filename) = true
      · simp [hb, hf] at hval
      · simp [downloadOnInput, hb, hf]
    · simp [downloadOnInput, hb]
  · intro hval
    by_cases hb : truthyStr (jsOr ucfg.bucket msg.bucket) = true
    · by_cases hf : truthyStr (jsOr (some ucfg.filename) msg.filename) = true
      · by_cases hp : isNullish msg.payload = true
        · simp [uploadOnInput, hb, hf, hp]
        · by_cases hs : bodyOversized (normalizeBody msg.payload) = true
          · simp [uploadOnInput, hb, hf, hp, hs]
          · simp [hb, hf, hp, hs] at hval
      · simp [uploadOnInput, hb, hf]
    · simp [uploadOnInput, hb]

/-- Witness for C9 at a concrete input: no bucket resolvable for the
download node, a null payload for the upload node. -/
theorem validation_failure_leaves_message_unmodified_witness :
    (downloadOnInput {} { payload := JSValue.jsNull, filename := some "f" }
        (.ok [[1]])).msg =
      ({ payload := JSValue.jsNull, filename := some "f" } : Msg) ∧
    (downloadOnInput {} { payload := JSValue.jsNull, filename := some "f" }
        (.ok [[1]])).sent = false ∧
    (downloadOnInput {} { payload := JSValue.jsNull, filename := some "f" }
        (.ok [[1]])).request = none ∧
    (uploadOnInput { bucket := some "b", filename := "f.txt" }
        { payload := JSValue.jsNull, filename := some "f" } (.ok {})).msg =
      ({ payload := JSValue.jsNull, filename := some "f" } : Msg) ∧
    (uploadOnInput { bucket := some "b", filename := "f.txt" }
        { payload := JSValue.jsNull, filename := some "f" } (.ok {})).sent
      = false ∧
    (uploadOnInput { bucket := some "b", filename := "f.txt" }
        { payload := JSValue.jsNull, filename := some "f" } (.ok {})).request
      = none := by
  have h := validation_failure_leaves_message_unmodified
    {} { bucket := some "b", filename := "f.txt" }
    { payload := JSValue.jsNull, filename := some "f" } (.ok [[1]]) (.ok {})
  have hd := h.1 (Or.inl (by decide))
  have hu := h.2 (Or.inr (Or.inr (Or.inl (by decide))))
  exact ⟨hd.1, hd.2.1, hd.2.2, hu.1, hu.2.1, hu.2.2⟩

/-- C6: every pre-flight validation failure (missing resolved bucket,
missing resolved filename, missing upload payload, oversized normalized
upload body) reports exactly one error and emits no output message; for
the upload node the missing-field checks run in the fixed order bucket,
filename, payload, and only the first failing check is reported (each
clause below holds regardless of the later checks' outcomes). -/
theorem preflight_validation_reports_first_failure_and_emits_nothing
    (dcfg : DlConfig) (ucfg : UlConfig) (msg : Msg)
    (dresp : Except S3Err (List Bytes)) (uresp : Except S3Err PutResponse) :
    (truthyStr (jsOr dcfg.bucket msg.bucket) = false →
      downloadOnInput dcfg msg dresp =
        { msg := msg, sent := false, errorLog := some "no-bucket-specified",
          request := none }) ∧
    (truthyStr (jsOr dcfg.bucket msg.bucket) = true →
     truthyStr (jsOr (some dcfg.filename) msg.filename) = false →
      downloadOnInput dcfg msg dresp =
        { msg := msg, sent := false, errorLog := some "no-filename-specified",
          request := none }) ∧
    (truthyStr (jsOr ucfg.bucket msg.bucket) = false →
      uploadOnInput ucfg msg uresp =
        { msg := msg, sent := false, errorLog := some "no-bucket-specified",
          request := none }) ∧
    (truthyStr (jsOr ucfg.bucket msg.bucket) = true →
     truthyStr (jsOr (some ucfg.filename) msg.filename) = false →
      uploadOnInput ucfg msg uresp =
        { msg := msg, sent := false, errorLog := some "no-filename-specified",
          request := none }) ∧
    (truthyStr (jsOr ucfg.bucket msg.bucket) = true →
     truthyStr (jsOr (some ucfg.filename) msg.filename) = true →
     isNullish msg.payload = true →
      uploadOnInput ucfg msg uresp =
        { msg := msg, sent := false, errorLog := some "no-payload-specified",
          request := none }) ∧
    (truthyStr (jsOr ucfg.bucket msg.bucket) = true →
     truthyStr (jsOr (some ucfg.filename) msg.filename) = true →
     isNullish msg.payload = false →
     bodyOversized (normalizeBody msg.payload) = true →
      uploadOnInput ucfg msg uresp =
        { msg := msg, sent := false,
          errorLog := some "upload-size-limit-exceeded", request := none }) := by
  refine ⟨?_, ?_, ?_, ?_, ?_, ?_⟩
  · intro hb; simp [downloadOnInput, hb]
  · intro hb hf; simp [downloadOnInput, hb, hf]
  · intro hb; simp [uploadOnInput, hb]
  · intro hb hf; simp [uploadOnInput, hb, hf]
  · intro hb hf hp; simp [uploadOnInput, hb, hf, hp]
  · intro hb hf hp hs; simp [uploadOnInput, hb, hf, hp, hs]

/-- Witness for C6 at concrete inputs: an upload message with a filename
and payload but no resolvable bucket is rejected by the bucket check (the
first in the fixed order), without emitting a message. -/
theorem preflight_validation_first_failure_witness :
    downloadOnInput {} { filename := some "f", payload := JSValue.jsStr "x" }
        (.ok [[1]]) =
      { msg := { filename := some "f", payload := JSValue.jsStr "x" },
        sent := false, errorLog := some "no-bucket-specified",
        request := none } ∧
    uploadOnInput {} { filename := some "f", payload := JSValue.jsStr "x" }
        (.ok {}) =
      { msg := { filename := some "f", payload := JSValue.jsStr "x" },
        sent := false, errorLog := some "no-bucket-specified",
        request := none } := by
  have h := preflight_validation_reports_first_failure_and_emits_nothing
    {} {} { filename := some "f", payload := JSValue.jsStr "x" }
    (.ok [[1]]) (.ok {})
  exact ⟨h.1 (by decide), h.2.2.1 (by decide)⟩

/-- Modelled from the spec's wording of content-type resolution (§4.3
item (a)–(d) / claim C4): node-level configured content type if
non-empty; else the request-supplied content type field if present; else
the type inferred from the resolved filename's extension (the part after
the last dot, existing only when the filename has a dot) via the
extension→MIME table, case-insensitively; else `application/octet-stream`
when the extension is unrecognized or the filename has no extension. -/
def specContentTypeClaim (nodeCT : String) (msgCT : Option String)
    (filename : Option String) : String :=
  if nodeCT ≠ "" then nodeCT
  else
    match msgCT with
    | some s => s
    | none =>
        match filename with
        | none => "application/octet-stream"
        | some f =>
            if f.data.contains '.' then
              ((mimeTypes.lookup (lastDotSegment (lowerStr f))).getD
                "application/octet-stream")
            else "application/octet-stream"

theorem lookup_snd_ne_empty (l : List (String × String))
    (hl : ∀ p ∈ l, p.2 ≠ "") (k : String) :
    (l.lookup k).getD "application/octet-stream" ≠ "" := by
  induction l with
  | nil => simp [List.lookup]
  | cons p rest ih =>
      obtain ⟨a, b⟩ := p
      by_cases hk : (k == a) = true
      · simp only [List.lookup, hk, if_true, Option.getD_some]
        exact hl (a, b) (by simp)
      · simp only [List.lookup, hk, if_false]
        exact ih (fun q hq => hl q (List.mem_cons_of_mem _ hq))

theorem detectContentType_ne_empty (fn : Option String) :
    detectContentType fn ≠ "" := by
  cases fn with
  | none => simp [detectContentType]
  | some f =>
      by_cases hf : f = ""
      · simp [detectContentType, hf]
      · simp only [detectContentType, hf, if_false]
        exact lookup_snd_ne_empty mimeTypes (by decide) _

theorem resolveContentType_ne_empty (nCT : String) (mCT : Option String)
    (fn : Option String) : resolveContentType nCT mCT fn ≠ "" := by
  unfold resolveContentType
  by_cases hn : nCT ≠ ""
  · simp [hn]
  · simp only [hn, if_false]
    cases mCT with
    | none => exact detectContentType_ne_empty fn
    | some s =>
        by_cases hs : s ≠ ""
        · simp [hs]
        · simp only [hs, if_false]
          exact detectContentType_ne_empty fn

/-- C4 counterexample: with no node-level and no request content type, the
filename `"txt"` has no extension, so the claim requires
`application/octet-stream`; the code looks up the whole lowercased name as
the "extension" and resolves `text/plain`, and that is the content type the
issued put-object request carries. -/
theorem content_type_resolution_counterexample :
    resolveContentType "" none (some "txt") = "text/plain" ∧
    specContentTypeClaim "" none (some "txt") = "application/octet-stream" ∧
    ((uploadOnInput { bucket := some "b", filename := "txt" }
        { payload := JSValue.jsStr "x" } (.ok {})).request.map
      PutParams.contentType) = some (some "text/plain") ∧
    ("text/plain" : String) ≠ "application/octet-stream" := by
  exact ⟨by decide, by decide, by decide, by decide⟩

/-- C4 amended: content type resolves in priority order — (a) node-level
configured content type if non-empty; (b) the request-supplied content type
field if present and non-empty; (c) otherwise from `detectContentType` on
the resolved filename, which looks up the last dot-separated segment of the
lowercased filename (for a filename without a dot, the whole lowercased
name) in the extension→MIME table; (d) `application/octet-stream` when that
key is unrecognized or the filename is absent/empty.  The issued put-object
request carries exactly this resolution. -/
theorem content_type_resolution_amended
    (cfg : UlConfig) (msg : Msg) (resp : Except S3Err PutResponse)
    (nodeCT : String) (msgCT : Option String) (fn : Option String) :
    (nodeCT ≠ "" → resolveContentType nodeCT msgCT fn = nodeCT) ∧
    (nodeCT = "" → ∀ s, msgCT = some s → s ≠ "" →
       resolveContentType nodeCT msgCT fn = s) ∧
    (nodeCT = "" → (msgCT = none ∨ msgCT = some "") →
       resolveContentType nodeCT msgCT fn = detectContentType fn) ∧
    ((fn = none ∨ fn = some "") →
       detectContentType fn = "application/octet-stream") ∧
    (∀ f, fn = some f → f ≠ "" →
       detectContentType fn =
         (mimeTypes.lookup (lastDotSegment (lowerStr f))).getD
           "application/octet-stream") ∧
    (∀ prm, (uploadOnInput cfg msg resp).request = some prm →
       prm.contentType = some (resolveContentType cfg.contentType
         msg.contentType (jsOr (some cfg.filename) msg.filename))) := by
  refine ⟨?_, ?_, ?_, ?_, ?_, ?_⟩
  · intro h; simp [resolveContentType, h]
  · intro h s hms hs; subst hms; simp [resolveContentType, h, hs]
  · intro h hd
    rcases hd with hd | hd <;> subst hd <;> simp [resolveContentType, h]
  · intro hd
    rcases hd with hd | hd <;> subst hd <;> simp [detectContentType]
  · intro f hf hne; subst hf; simp [detectContentType, hne]
  · intro prm hprm
    by_cases hb : truthyStr (jsOr cfg.bucket msg.bucket) = true
    · by_cases hf : truthyStr (jsOr (some cfg.filename) msg.filename) = true
      · by_cases hp : isNullish msg.payload = true
        · simp [uploadOnInput, hb, hf, hp] at hprm
        · by_cases hs : bodyOversized (normalizeBody msg.payload) = true
          · simp [uploadOnInput, hb, hf, hp, hs] at hprm
          · cases resp with
            | ok r =>
                simp only [uploadOnInput, hb, hf, hp, hs, not_true,
                  Bool.not_eq_true, if_neg, if_false, ite_false] at hprm
                simp at hprm
                rw [← hprm]
                simp [resolveContentType_ne_empty]
            | error e =>
                simp only [uploadOnInput, hb, hf, hp, hs, not_true,
                  Bool.not_eq_true, if_neg, if_false, ite_false] at hprm
                simp at hprm
                rw [← hprm]
                simp [resolveContentType_ne_empty]
      · simp [uploadOnInput, hb, hf] at hprm
    · simp [uploadOnInput, hb] at hprm

/-- Witness for C4 (amended) at a concrete input: with no node-level and no
request content type the resolution is the detector's answer, and the
detector looks up the lowercased extension. -/
theorem content_type_resolution_amended_witness :
    resolveContentType "" none (some "Photo.JPG") =
      detectContentType (some "Photo.JPG") ∧
    detectContentType (some "Photo.JPG") =
      (mimeTypes.lookup (lastDotSegment (lowerStr "Photo.JPG"))).getD
        "application/octet-stream" := by
  have h := content_type_resolution_amended {} {} (.ok {}) "" none
    (some "Photo.JPG")
  exact ⟨h.2.2.1 rfl (Or.inl rfl), h.2.2.2.2.1 "Photo.JPG" rfl (by decide)⟩

/-- C5 counterexample: a number payload is neither a byte sequence nor a
string, yet the code submits it raw — not as the UTF-8 bytes of its JSON
serialization (`"42"`, i.e. bytes `[52, 50]`), refuting "every non-bytes,
non-string payload value is submitted as its UTF-8-encoded JSON
serialization". -/
theorem number_payload_not_json_serialized_counterexample :
    ((uploadOnInput { bucket := some "b", filename := "f.bin" }
        { payload := JSValue.jsNum 42 } (.ok {})).request.map
      (fun p => bodyRawNum p.body)) = some (some 42) ∧
    ((uploadOnInput { bucket := some "b", filename := "f.bin" }
        { payload := JSValue.jsNum 42 } (.ok {})).request.map
      (fun p => bodyBytes p.body)) = some none ∧
    utf8Bytes ((jsonStringify (JSValue.jsNum 42)).getD "") = [52, 50] := by
  exact ⟨by decide, by decide, by decide⟩

/-- C5 amended: payload normalization applies exactly one rule, by type —
a byte sequence is used as-is; a text string is UTF-8 encoded; any other
value of object type (plain objects, arrays, null) is serialized to JSON
text and UTF-8 encoded; a non-object, non-string primitive (number,
boolean) is submitted unmodified, not JSON-serialized.  The issued
put-object request's body is exactly this normalization of the request
payload. -/
theorem payload_normalization_amended
    (p : JSValue) (cfg : UlConfig) (msg : Msg)
    (resp : Except S3Err PutResponse) :
    (∀ bs, p = JSValue.jsBuffer bs → normalizeBody p = .bytes bs) ∧
    (∀ s, p = JSValue.jsStr s → normalizeBody p = .bytes (utf8Bytes s)) ∧
    (typeofJS p = "object" → isBufferJS p = false →
       ∃ j, jsonStringify p = some j ∧
         normalizeBody p = .bytes (utf8Bytes j)) ∧
    (typeofJS p ≠ "object" → typeofJS p ≠ "string" →
       normalizeBody p = .raw p) ∧
    (∀ prm, (uploadOnInput cfg msg resp).request = some prm →
       prm.body = normalizeBody msg.payload) := by
  refine ⟨?_, ?_, ?_, ?_, ?_⟩
  · intro bs h; subst h; rfl
  · intro s h; subst h; rfl
  · intro hobj hbuf
    cases p <;> simp_all [typeofJS, isBufferJS] <;>
      simp [jsonStringify, normalizeBody]
  · intro hobj hstr
    cases p <;> simp_all [typeofJS] <;> rfl
  · intro prm hprm
    by_cases hb : truthyStr (jsOr cfg.bucket msg.bucket) = true
    · by_cases hf : truthyStr (jsOr (some cfg.filename) msg.filename) = true
      · by_cases hp : isNullish msg.payload = true
        · simp [uploadOnInput, hb, hf, hp] at hprm
        · by_cases hs : bodyOversized (normalizeBody msg.payload) = true
          · simp [uploadOnInput, hb, hf, hp, hs] at hprm
          · cases resp with
            | ok r =>
                simp [uploadOnInput, hb, hf, hp, hs] at hprm
                rw [← hprm]
            | error e =>
                simp [uploadOnInput, hb, hf, hp, hs] at hprm
                rw [← hprm]
      · simp [uploadOnInput, hb, hf] at hprm
    · simp [uploadOnInput, hb] at hprm

/-- Witness for C5 (amended) at concrete inputs: a structured payload is
JSON-serialized then UTF-8 encoded; a string payload is UTF-8 encoded. -/
theorem payload_normalization_amended_witness :
    (∃ j, jsonStringify (JSValue.jsObj
        [("key", JSValue.jsStr "value"), ("count", JSValue.jsNum 42)]) =
          some j ∧
      normalizeBody (JSValue.jsObj
        [("key", JSValue.jsStr "value"), ("count", JSValue.jsNum 42)]) =
          .bytes (utf8Bytes j)) ∧
    normalizeBody (JSValue.jsStr "Hello, S3!") =
      .bytes (utf8Bytes "Hello, S3!") := by
  have h := payload_normalization_amended
    (JSValue.jsObj [("key", JSValue.jsStr "value"), ("count", JSValue.jsNum 42)])
    {} {} (.ok {})
  have h2 := payload_normalization_amended (JSValue.jsStr "Hello, S3!")
    {} {} (.ok {})
  exact ⟨h.2.2.1 rfl rfl, h2.2.1 "Hello, S3!" rfl⟩

/-- C7 counterexample: the receipt object literal always assigns the
`versionId` property (`versionId: response.VersionId`), so a successful
upload whose storage response carries no version id still produces a
receipt with a `versionId` own property (valued `undefined`) — refuting
"its versionId field is present only when the storage response returned
one". -/
theorem versionid_key_always_present_counterexample :
    (uploadOnInput { bucket := some "b", filename := "f.txt" }
        { payload := JSValue.jsStr "x" }
        (.ok { etag := some "E", versionId := none })).sent = true ∧
    objHasField (uploadOnInput { bucket := some "b", filename := "f.txt" }
        { payload := JSValue.jsStr "x" }
        (.ok { etag := some "E", versionId := none })).msg.payload
      "versionId" = true ∧
    ({ etag := some "E", versionId := none } : PutResponse).versionId
      = none := by
  exact ⟨by decide, by decide, rfl⟩

/-- C7 amended: for every upload that succeeds, the emitted receipt has
`success: true`, its `bucket` and `key` equal the resolved bucket and
filename used in the put-object request, its `etag` comes from the storage
response, and it always has a `versionId` property whose value is the
storage response's version id — defined exactly when the storage response
returned one, `undefined` otherwise. -/
theorem upload_receipt_fields
    (cfg : UlConfig) (msg : Msg) (r : PutResponse)
    (hb : truthyStr (jsOr cfg.bucket msg.bucket) = true)
    (hf : truthyStr (jsOr (some cfg.filename) msg.filename) = true)
    (hp : isNullish msg.payload = false)
    (hs : bodyOversized (normalizeBody msg.payload) = false) :
    (uploadOnInput cfg msg (.ok r)).sent = true ∧
    ((uploadOnInput cfg msg (.ok r)).request.map PutParams.bucket
      = some ((jsOr cfg.bucket msg.bucket).getD "")) ∧
    ((uploadOnInput cfg msg (.ok r)).request.map PutParams.key
      = some ((jsOr (some cfg.filename) msg.filename).getD "")) ∧
    objField (uploadOnInput cfg msg (.ok r)).msg.payload "success"
      = some (JSValue.jsBool true) ∧
    objField (uploadOnInput cfg msg (.ok r)).msg.payload "bucket"
      = some (JSValue.jsStr ((jsOr cfg.bucket msg.bucket).getD "")) ∧
    objField (uploadOnInput cfg msg (.ok r)).msg.payload "key"
      = some (JSValue.jsStr ((jsOr (some cfg.filename) msg.filename).getD "")) ∧
    objField (uploadOnInput cfg msg (.ok r)).msg.payload "etag"
      = some (optStrToJS r.etag) ∧
    objHasField (uploadOnInput cfg msg (.ok r)).msg.payload "versionId"
      = true ∧
    objField (uploadOnInput cfg msg (.ok r)).msg.payload "versionId"
      = some (optStrToJS r.versionId) ∧
    (objField (uploadOnInput cfg msg (.ok r)).msg.payload "versionId"
        = some JSValue.jsUndefined ↔ r.versionId = none) := by
  refine ⟨?_, ?_, ?_, ?_, ?_, ?_, ?_, ?_, ?_, ?_⟩ <;>
    simp [uploadOnInput, hb, hf, hp, hs, objField, objHasField, List.lookup]
  cases r.versionId <;> simp [optStrToJS]

/-- Witness for C7 (amended) at a concrete input whose response carries a
version id. -/
theorem upload_receipt_fields_witness :
    (uploadOnInput { bucket := some "b", filename := "f.txt" }
        { payload := JSValue.jsStr "x" }
        (.ok { etag := some "E", versionId := some "V" })).sent = true ∧
    ((uploadOnInput { bucket := some "b", filename := "f.txt" }
        { payload := JSValue.jsStr "x" }
        (.ok { etag := some "E", versionId := some "V" })).request.map
      PutParams.bucket = some ((jsOr (some "b") none).getD "")) ∧
    ((uploadOnInput { bucket := some "b", filename := "f.txt" }
        { payload := JSValue.jsStr "x" }
        (.ok { etag := some "E", versionId := some "V" })).request.map
      PutParams.key = some ((jsOr (some "f.txt") none).getD "")) ∧
    objField (uploadOnInput { bucket := some "b", filename := "f.txt" }
        { payload := JSValue.jsStr "x" }
        (.ok { etag := some "E", versionId := some "V" })).msg.payload
      "success" = some (JSValue.jsBool true) ∧
    objField (uploadOnInput { bucket := some "b", filename := "f.txt" }
        { payload := JSValue.jsStr "x" }
        (.ok { etag := some "E", versionId := some "V" })).msg.payload
      "bucket" = some (JSValue.jsStr ((jsOr (some "b") none).getD "")) ∧
    objField (uploadOnInput { bucket := some "b", filename := "f.txt" }
        { payload := JSValue.jsStr "x" }
        (.ok { etag := some "E", versionId := some "V" })).msg.payload
      "key" = some (JSValue.jsStr ((jsOr (some "f.txt") none).getD "")) ∧
    objField (uploadOnInput { bucket := some "b", filename := "f.txt" }
        { payload := JSValue.jsStr "x" }
        (.ok { etag := some "E", versionId := some "V" })).msg.payload
      "etag" = some (optStrToJS (some "E")) ∧
    objHasField (uploadOnInput { bucket := some "b", filename := "f.txt" }
        { payload := JSValue.jsStr "x" }
        (.ok { etag := some "E", versionId := some "V" })).msg.payload
      "versionId" = true ∧
    objField (uploadOnInput { bucket := some "b", filename := "f.txt" }
        { payload := JSValue.jsStr "x" }
        (.ok { etag := some "E", versionId := some "V" })).msg.payload
      "versionId" = some (optStrToJS (some "V")) ∧
    (objField (uploadOnInput { bucket := some "b", filename := "f.txt" }
        { payload := JSValue.jsStr "x" }
        (.ok { etag := some "E", versionId := some "V" })).msg.payload
      "versionId" = some JSValue.jsUndefined ↔
        (some "V" : Option String) = none) :=
  upload_receipt_fields { bucket := some "b", filename := "f.txt" }
    { payload := JSValue.jsStr "x" } { etag := some "E", versionId := some "V" }
    (by decide) (by decide) (by decide) (by decide)

/-- C10: an empty-string payload passes the pre-flight payload check (only
`null`/`undefined` payloads are rejected) and the body submitted to
storage is the empty byte sequence. -/
theorem empty_string_payload_uploads_empty_body
    (cfg : UlConfig) (msg : Msg) (resp : Except S3Err PutResponse)
    (hpl : msg.payload = JSValue.jsStr "")
    (hb : truthyStr (jsOr cfg.bucket msg.bucket) = true)
    (hf : truthyStr (jsOr (some cfg.filename) msg.filename) = true) :
    isNullish msg.payload = false ∧
    normalizeBody msg.payload = .bytes [] ∧
    ((uploadOnInput cfg msg resp).request.map PutParams.body
      = some (.bytes [])) := by
  have hp : isNullish msg.payload = false := by rw [hpl]; rfl
  have hn : normalizeBody msg.payload = .bytes [] := by rw [hpl]; rfl
  have hs : bodyOversized (normalizeBody msg.payload) = false := by
    rw [hn]; decide
  have hs0 : bodyOversized (.bytes ([] : Bytes)) = false := by decide
  refine ⟨hp, hn, ?_⟩
  cases resp with
  | ok r => simp [uploadOnInput, hb, hf, hp, hs, hn, hs0]
  | error e => simp [uploadOnInput, hb, hf, hp, hs, hn, hs0]

/-- Witness for C10 at a concrete input. -/
theorem empty_string_payload_uploads_empty_body_witness :
    isNullish (JSValue.jsStr "") = false ∧
    normalizeBody (JSValue.jsStr "") = .bytes [] ∧
    ((uploadOnInput { bucket := some "b", filename := "f.txt" }
        { payload := JSValue.jsStr "" } (.ok {})).request.map PutParams.body
      = some (.bytes [])) :=
  empty_string_payload_uploads_empty_body
    { bucket := some "b", filename := "f.txt" }
    { payload := JSValue.jsStr "" } (.ok {}) rfl (by decide) (by decide)

end EpiAwsS3
